import Mathlib

/-!
Shallow embedding of `spending_categorizer_and_analyser` from
`src/tools.py` of the budget-optimizer repository.

Real numbers of the source (Python floats) are modelled as rationals.
The human-readable optimization strings are modelled by an inductive
message type: each constructor stands for one of the four message kinds
the source can append, carrying the numeric value interpolated into the
string where the source interpolates one (the discretionary excess, and
the absolute deficit).
-/

/-- The four optimization messages `src/tools.py` can emit, each carrying
the value the source interpolates into the corresponding f-string. -/
inductive Msg where
  | discretionary (excess : ℚ) : Msg
  | deficit (amount : ℚ) : Msg
  | thinSurplus : Msg
  | fixedLoad : Msg
  deriving DecidableEq, Repr

/-- The dictionary returned by `spending_categorizer_and_analyser`
(`src/tools.py`, lines 191-198), one field per key. -/
structure BudgetResult where
  total_monthly_net_income_inr : ℚ
  total_monthly_expenses_inr : ℚ
  net_cash_flow_inr : ℚ
  goal_funding_status : String
  funding_shortfall_inr : ℚ
  optimization_areas : List Msg
  deriving DecidableEq, Repr

/-- `spending_categorizer_and_analyser` from `src/tools.py`, lines 91-198.
The list mutations of the source are modelled by rebinding:
`list.append(x)` becomes `l ++ [x]` and `list.insert(0, x)` becomes
`x :: l`.  `0.30`, `0.10` and `0.50` are the exact rationals `3/10`,
`1/10` and `1/2`. -/
def spending_categorizer_and_analyser
    (monthly_net_income_inr : ℚ)
    (fixed_expenses_inr : ℚ)
    (variable_expenses_inr : ℚ)
    (discretionary_spending_inr : ℚ)
    (target_savings_inr : ℚ) : BudgetResult :=
  let total_expenses :=
    fixed_expenses_inr + variable_expenses_inr + discretionary_spending_inr
  let net_cash_flow := monthly_net_income_inr - total_expenses
  let optimization_suggestions : List Msg := []
  let optimization_suggestions :=
    if discretionary_spending_inr > 3 / 10 * monthly_net_income_inr then
      optimization_suggestions ++
        [Msg.discretionary
          (discretionary_spending_inr - 3 / 10 * monthly_net_income_inr)]
    else optimization_suggestions
  let optimization_suggestions :=
    if net_cash_flow < 0 then
      Msg.deficit |net_cash_flow| :: optimization_suggestions
    else if net_cash_flow < 1 / 10 * monthly_net_income_inr then
      optimization_suggestions ++ [Msg.thinSurplus]
    else optimization_suggestions
  let optimization_suggestions :=
    if fixed_expenses_inr > 1 / 2 * monthly_net_income_inr then
      optimization_suggestions ++ [Msg.fixedLoad]
    else optimization_suggestions
  { total_monthly_net_income_inr := monthly_net_income_inr
    total_monthly_expenses_inr := total_expenses
    net_cash_flow_inr := net_cash_flow
    goal_funding_status :=
      if net_cash_flow ≥ target_savings_inr then "On track" else "Shortfall"
    funding_shortfall_inr := max 0 (target_savings_inr - net_cash_flow)
    optimization_areas := optimization_suggestions }

/-- Closed form of the `optimization_areas` field: a deficit block, then a
discretionary block, then a thin-surplus block, then a fixed-load block,
each present exactly when its branch condition holds. -/
theorem optimization_areas_spec (i fx v d t : ℚ) :
    (spending_categorizer_and_analyser i fx v d t).optimization_areas =
      (if i - (fx + v + d) < 0 then [Msg.deficit |i - (fx + v + d)|] else []) ++
      (if d > 3 / 10 * i then [Msg.discretionary (d - 3 / 10 * i)] else []) ++
      (if 0 ≤ i - (fx + v + d) ∧ i - (fx + v + d) < 1 / 10 * i then
        [Msg.thinSurplus] else []) ++
      (if fx > 1 / 2 * i then [Msg.fixedLoad] else []) := by
  unfold spending_categorizer_and_analyser
  dsimp only
  split_ifs <;> simp_all <;> linarith

/-- A discretionary message is in the output exactly when the 30% check
fires, and it always carries the excess over the 30% threshold. -/
theorem mem_discretionary_iff (i fx v d t e : ℚ) :
    Msg.discretionary e ∈
        (spending_categorizer_and_analyser i fx v d t).optimization_areas ↔
      d > 3 / 10 * i ∧ e = d - 3 / 10 * i := by
  rw [optimization_areas_spec]
  split_ifs <;> simp_all

/-- A deficit message is in the output exactly when net cash flow is
negative, and it always carries the absolute deficit. -/
theorem mem_deficit_iff (i fx v d t a : ℚ) :
    Msg.deficit a ∈
        (spending_categorizer_and_analyser i fx v d t).optimization_areas ↔
      i - (fx + v + d) < 0 ∧ a = |i - (fx + v + d)| := by
  rw [optimization_areas_spec]
  split_ifs <;> simp_all

/-- The thin-surplus message is in the output exactly when net cash flow
is non-negative but below 10% of income. -/
theorem mem_thinSurplus_iff (i fx v d t : ℚ) :
    Msg.thinSurplus ∈
        (spending_categorizer_and_analyser i fx v d t).optimization_areas ↔
      0 ≤ i - (fx + v + d) ∧ i - (fx + v + d) < 1 / 10 * i := by
  rw [optimization_areas_spec]
  split_ifs <;> simp_all

/-- The fixed-load message is in the output exactly when the 50% check
fires. -/
theorem mem_fixedLoad_iff (i fx v d t : ℚ) :
    Msg.fixedLoad ∈
        (spending_categorizer_and_analyser i fx v d t).optimization_areas ↔
      fx > 1 / 2 * i := by
  rw [optimization_areas_spec]
  split_ifs <;> simp_all

/-- C1: for every input, `total_monthly_expenses_inr` equals the sum of
the three expense inputs, `net_cash_flow_inr` equals income minus that
total, and `total_monthly_net_income_inr` echoes the income input. -/
theorem C1_totals (i fx v d t : ℚ) :
    (spending_categorizer_and_analyser i fx v d t).total_monthly_expenses_inr =
      fx + v + d ∧
    (spending_categorizer_and_analyser i fx v d t).net_cash_flow_inr =
      i - (spending_categorizer_and_analyser i fx v d t).total_monthly_expenses_inr ∧
    (spending_categorizer_and_analyser i fx v d t).total_monthly_net_income_inr = i :=
  ⟨rfl, rfl, rfl⟩

/-- C2: the goal-funding status is "On track" iff net cash flow is at
least the target, the shortfall equals `max 0 (target - net)`, the
shortfall is non-negative, and on track implies zero shortfall. -/
theorem C2_goal_funding (i fx v d t : ℚ) :
    ((spending_categorizer_and_analyser i fx v d t).goal_funding_status =
        "On track" ↔
      (spending_categorizer_and_analyser i fx v d t).net_cash_flow_inr ≥ t) ∧
    (spending_categorizer_and_analyser i fx v d t).funding_shortfall_inr =
      max 0 (t - (spending_categorizer_and_analyser i fx v d t).net_cash_flow_inr) ∧
    0 ≤ (spending_categorizer_and_analyser i fx v d t).funding_shortfall_inr ∧
    ((spending_categorizer_and_analyser i fx v d t).goal_funding_status =
        "On track" →
      (spending_categorizer_and_analyser i fx v d t).funding_shortfall_inr = 0) := by
  unfold spending_categorizer_and_analyser
  dsimp only
  refine ⟨?_, rfl, le_max_left _ _, ?_⟩
  · split_ifs with h
    · simpa using h
    · simp only [ge_iff_le]
      constructor
      · intro hs
        exact absurd hs (by decide)
      · intro hle
        exact absurd hle (by simpa using h)
  · intro hs
    split_ifs at hs with h
    · exact max_eq_left (by linarith)
    · exact absurd hs (by decide)

/-- C7: the evaluator is total: every rational 5-tuple of inputs yields a
`BudgetResult`, whose status is one of the two documented strings. -/
theorem C7_total (i fx v d t : ℚ) :
    ∃ r : BudgetResult, spending_categorizer_and_analyser i fx v d t = r ∧
      (r.goal_funding_status = "On track" ∨
        r.goal_funding_status = "Shortfall") := by
  refine ⟨_, rfl, ?_⟩
  unfold spending_categorizer_and_analyser
  dsimp only
  split_ifs <;> simp

/-- C3: when net cash flow is negative and the discretionary check also
fires, the deficit message (carrying the absolute deficit) is at index 0
and the discretionary message appears after it. -/
theorem C3_deficit_first (i fx v d t : ℚ)
    (hneg : (spending_categorizer_and_analyser i fx v d t).net_cash_flow_inr < 0)
    (hdisc : d > 3 / 10 * i) :
    ((spending_categorizer_and_analyser i fx v d t).optimization_areas).head? =
      some (Msg.deficit
        |(spending_categorizer_and_analyser i fx v d t).net_cash_flow_inr|) ∧
    Msg.discretionary (d - 3 / 10 * i) ∈
      ((spending_categorizer_and_analyser i fx v d t).optimization_areas).tail := by
  have hnet : (spending_categorizer_and_analyser i fx v d t).net_cash_flow_inr =
      i - (fx + v + d) := rfl
  rw [hnet] at hneg ⊢
  rw [optimization_areas_spec, if_pos hneg, if_pos hdisc]
  constructor
  · simp
  · split_ifs <;> simp

/-- C3 witness: scenario with income 50000, fixed 20000, variable 10000,
discretionary 25000, target 5000 (net cash flow -5000). -/
theorem C3_deficit_first_witness :
    ((spending_categorizer_and_analyser 50000 20000 10000 25000
        5000).optimization_areas).head? =
      some (Msg.deficit
        |(spending_categorizer_and_analyser 50000 20000 10000 25000
            5000).net_cash_flow_inr|) ∧
    Msg.discretionary ((25000 : ℚ) - 3 / 10 * 50000) ∈
      ((spending_categorizer_and_analyser 50000 20000 10000 25000
          5000).optimization_areas).tail :=
  C3_deficit_first 50000 20000 10000 25000 5000
    (by norm_num [spending_categorizer_and_analyser]) (by norm_num)

/-- C4: the discretionary message is present iff discretionary spending
strictly exceeds 30% of income, it always reports the excess over that
threshold, and at income 100000 a discretionary spend of exactly 30000
adds no message while 30000.01 does. -/
theorem C4_discretionary (i fx v d t : ℚ) :
    ((∃ e, Msg.discretionary e ∈
        (spending_categorizer_and_analyser i fx v d t).optimization_areas) ↔
      d > 3 / 10 * i) ∧
    (∀ e, Msg.discretionary e ∈
        (spending_categorizer_and_analyser i fx v d t).optimization_areas →
      e = d - 3 / 10 * i) ∧
    (¬ ∃ e, Msg.discretionary e ∈
        (spending_categorizer_and_analyser 100000 fx v 30000
          t).optimization_areas) ∧
    (∃ e, Msg.discretionary e ∈
        (spending_categorizer_and_analyser 100000 fx v (3000001 / 100)
          t).optimization_areas) := by
  refine ⟨⟨?_, ?_⟩, ?_, ?_, ?_⟩
  · rintro ⟨e, he⟩
    exact ((mem_discretionary_iff i fx v d t e).1 he).1
  · intro h
    exact ⟨d - 3 / 10 * i, (mem_discretionary_iff i fx v d t _).2 ⟨h, rfl⟩⟩
  · intro e he
    exact ((mem_discretionary_iff i fx v d t e).1 he).2
  · rintro ⟨e, he⟩
    have h := ((mem_discretionary_iff 100000 fx v 30000 t e).1 he).1
    norm_num at h
  · exact ⟨3000001 / 100 - 3 / 10 * 100000,
      (mem_discretionary_iff 100000 fx v (3000001 / 100) t _).2 ⟨by norm_num, rfl⟩⟩

/-- C5 counterexample: at income -100, fixed -95, variable 0,
discretionary 0, target 0, the net cash flow -5 is at least 10% of the
income (-10), yet the deficit message is in the output: the claim's last
conjunct fails for negative income. -/
theorem C5_counterexample :
    (spending_categorizer_and_analyser (-100) (-95) 0 0 0).net_cash_flow_inr ≥
      1 / 10 * (-100) ∧
    Msg.deficit 5 ∈
      (spending_categorizer_and_analyser (-100) (-95) 0 0 0).optimization_areas := by
  constructor
  · norm_num [spending_categorizer_and_analyser]
  · refine (mem_deficit_iff (-100) (-95) 0 0 0 5).2 ⟨by norm_num, ?_⟩
    rw [show ((-100 : ℚ) - (-95 + 0 + 0)) = -5 by norm_num, abs_neg]
    norm_num

/-- C5 (amended): when net cash flow is non-negative and below 10% of
income, the thin-surplus message is appended after any discretionary
message and before any fixed-load message; the thin-surplus and deficit
messages never appear together; and when net cash flow is non-negative
and at least 10% of income, neither of the two messages is added. -/
theorem C5_thin_surplus (i fx v d t : ℚ) :
    ((0 ≤ (spending_categorizer_and_analyser i fx v d t).net_cash_flow_inr ∧
        (spending_categorizer_and_analyser i fx v d t).net_cash_flow_inr <
          1 / 10 * i) →
      (spending_categorizer_and_analyser i fx v d t).optimization_areas =
        (if d > 3 / 10 * i then [Msg.discretionary (d - 3 / 10 * i)] else []) ++
        [Msg.thinSurplus] ++
        (if fx > 1 / 2 * i then [Msg.fixedLoad] else [])) ∧
    (¬ (Msg.thinSurplus ∈
          (spending_categorizer_and_analyser i fx v d t).optimization_areas ∧
        ∃ a, Msg.deficit a ∈
          (spending_categorizer_and_analyser i fx v d t).optimization_areas)) ∧
    ((0 ≤ (spending_categorizer_and_analyser i fx v d t).net_cash_flow_inr ∧
        (spending_categorizer_and_analyser i fx v d t).net_cash_flow_inr ≥
          1 / 10 * i) →
      Msg.thinSurplus ∉
        (spending_categorizer_and_analyser i fx v d t).optimization_areas ∧
      ∀ a, Msg.deficit a ∉
        (spending_categorizer_and_analyser i fx v d t).optimization_areas) := by
  have hnet : (spending_categorizer_and_analyser i fx v d t).net_cash_flow_inr =
      i - (fx + v + d) := rfl
  refine ⟨?_, ?_, ?_⟩
  · rintro ⟨h0, h1⟩
    rw [hnet] at h0 h1
    have hc : ¬ (i - (fx + v + d) < 0) := by linarith
    have hthin : 0 ≤ i - (fx + v + d) ∧ i - (fx + v + d) < 1 / 10 * i := ⟨h0, h1⟩
    rw [optimization_areas_spec, if_neg hc, if_pos hthin]
    simp [List.append_assoc]
  · rintro ⟨ht, a, ha⟩
    have h1 := (mem_thinSurplus_iff i fx v d t).1 ht
    have h2 := (mem_deficit_iff i fx v d t a).1 ha
    linarith [h1.1, h2.1]
  · rintro ⟨h0, h1⟩
    rw [hnet] at h0 h1
    constructor
    · intro ht
      have h := (mem_thinSurplus_iff i fx v d t).1 ht
      linarith [h.2]
    · intro a ha
      have h := (mem_deficit_iff i fx v d t a).1 ha
      linarith [h.1]

/-- C6: the fixed-load message is present iff fixed expenses strictly
exceed 50% of income, in which case it is the last element, after all
other messages; and scenario C (income 60000, fixed 35000, variable
5000, discretionary 5000, target 0) yields the fixed-load message alone,
with no thin-surplus message. -/
theorem C6_fixed_load (i fx v d t : ℚ) :
    (Msg.fixedLoad ∈
        (spending_categorizer_and_analyser i fx v d t).optimization_areas ↔
      fx > 1 / 2 * i) ∧
    (fx > 1 / 2 * i →
      ∃ l, (spending_categorizer_and_analyser i fx v d t).optimization_areas =
          l ++ [Msg.fixedLoad] ∧ Msg.fixedLoad ∉ l) ∧
    (spending_categorizer_and_analyser 60000 35000 5000 5000
        0).optimization_areas = [Msg.fixedLoad] := by
  refine ⟨mem_fixedLoad_iff i fx v d t, ?_, ?_⟩
  · intro h
    refine ⟨(if i - (fx + v + d) < 0 then [Msg.deficit |i - (fx + v + d)|]
          else []) ++
        (if d > 3 / 10 * i then [Msg.discretionary (d - 3 / 10 * i)] else []) ++
        (if 0 ≤ i - (fx + v + d) ∧ i - (fx + v + d) < 1 / 10 * i then
          [Msg.thinSurplus] else []), ?_, ?_⟩
    · rw [optimization_areas_spec, if_pos h]
    · split_ifs <;> simp
  · rw [optimization_areas_spec]
    norm_num

/-- C8: holding income, fixed, variable and target fixed, if a smaller
discretionary spend already triggers the discretionary message, any
larger spend also triggers it, and the reported excess never decreases. -/
theorem C8_discretionary_monotone (i fx v t d1 d2 : ℚ) (hle : d1 ≤ d2)
    (h1 : ∃ e, Msg.discretionary e ∈
      (spending_categorizer_and_analyser i fx v d1 t).optimization_areas) :
    (∃ e, Msg.discretionary e ∈
      (spending_categorizer_and_analyser i fx v d2 t).optimization_areas) ∧
    ∀ e1 e2,
      Msg.discretionary e1 ∈
        (spending_categorizer_and_analyser i fx v d1 t).optimization_areas →
      Msg.discretionary e2 ∈
        (spending_categorizer_and_analyser i fx v d2 t).optimization_areas →
      e1 ≤ e2 := by
  obtain ⟨e, he⟩ := h1
  have ha := (mem_discretionary_iff i fx v d1 t e).1 he
  constructor
  · exact ⟨d2 - 3 / 10 * i,
      (mem_discretionary_iff i fx v d2 t _).2 ⟨by linarith [ha.1], rfl⟩⟩
  · intro e1 e2 hm1 hm2
    have a1 := (mem_discretionary_iff i fx v d1 t e1).1 hm1
    have a2 := (mem_discretionary_iff i fx v d2 t e2).1 hm2
    rw [a1.2, a2.2]
    linarith

/-- C8 witness: at income 100000 with discretionary spends 40000 and
50000, the message persists and the excess grows. -/
theorem C8_discretionary_monotone_witness :
    (∃ e, Msg.discretionary e ∈
      (spending_categorizer_and_analyser 100000 0 0 50000
        0).optimization_areas) ∧
    ∀ e1 e2,
      Msg.discretionary e1 ∈
        (spending_categorizer_and_analyser 100000 0 0 40000
          0).optimization_areas →
      Msg.discretionary e2 ∈
        (spending_categorizer_and_analyser 100000 0 0 50000
          0).optimization_areas →
      e1 ≤ e2 :=
  C8_discretionary_monotone 100000 0 0 0 40000 50000 (by norm_num)
    ⟨10000, (mem_discretionary_iff 100000 0 0 40000 0 10000).2
      ⟨by norm_num, by norm_num⟩⟩

/-- C9: with negative income, the 30% and 50% thresholds are negative,
so every non-negative discretionary spend triggers the discretionary
message and every non-negative fixed expense triggers the fixed-load
message. -/
theorem C9_negative_income (i fx v d t : ℚ) (hi : i < 0) (hd : 0 ≤ d)
    (hfx : 0 ≤ fx) :
    (∃ e, Msg.discretionary e ∈
      (spending_categorizer_and_analyser i fx v d t).optimization_areas) ∧
    Msg.fixedLoad ∈
      (spending_categorizer_and_analyser i fx v d t).optimization_areas := by
  constructor
  · exact ⟨d - 3 / 10 * i,
      (mem_discretionary_iff i fx v d t _).2 ⟨by linarith, rfl⟩⟩
  · exact (mem_fixedLoad_iff i fx v d t).2 (by linarith)

/-- C9 witness: income -100 with zero discretionary spend and zero fixed
expenses triggers both messages. -/
theorem C9_negative_income_witness :
    (∃ e, Msg.discretionary e ∈
      (spending_categorizer_and_analyser (-100) 0 0 0 0).optimization_areas) ∧
    Msg.fixedLoad ∈
      (spending_categorizer_and_analyser (-100) 0 0 0 0).optimization_areas :=
  C9_negative_income (-100) 0 0 0 0 (by norm_num) le_rfl le_rfl

/-- C10: the output never holds more than three messages; the
discretionary check, the cash-flow health check (deficit or
thin-surplus) and the fixed-load check each contribute at most one, so
no message kind appears twice. -/
theorem C10_bounds (i fx v d t : ℚ) :
    ((spending_categorizer_and_analyser i fx v d t).optimization_areas).length ≤
      3 ∧
    ((spending_categorizer_and_analyser i fx v d t).optimization_areas).countP
      (fun m => match m with | Msg.discretionary _ => true | _ => false) ≤ 1 ∧
    ((spending_categorizer_and_analyser i fx v d t).optimization_areas).countP
      (fun m => match m with
        | Msg.deficit _ => true | Msg.thinSurplus => true
        | _ => false) ≤ 1 ∧
    ((spending_categorizer_and_analyser i fx v d t).optimization_areas).countP
      (fun m => match m with | Msg.fixedLoad => true | _ => false) ≤ 1 := by
  rw [optimization_areas_spec]
  rcases lt_or_le (i - (fx + v + d)) 0 with h1 | h1
  · have h3 : ¬ (0 ≤ i - (fx + v + d) ∧ i - (fx + v + d) < 1 / 10 * i) := by
      rintro ⟨h, _⟩
      linarith
    rw [if_pos h1, if_neg h3]
    split_ifs <;> simp [List.countP_append, List.countP_cons]
  · rw [if_neg (not_lt.mpr h1)]
    split_ifs <;> simp [List.countP_append, List.countP_cons]
